import Mathlib

set_option autoImplicit false

/-!
Verification of the retrieve - generate - log - poll - aggregate orchestration
pattern shared by the search notebooks (linkup, exa, tavily) and the LangGraph
financial research agent README in this repository.  Python values and control
flow are shallowly embedded: dictionaries with possibly-missing keys become
Option-valued fields, Python exceptions become Except values, and the batch
loops become structural recursions over the list of inputs.
-/

/-- A Python value that may sit in the is_relevant slot of a log document:
None, a boolean, or anything else (string, number, ...). -/
inductive PyVal where
  | pyNone
  | pyBool (b : Bool)
  | pyOther
deriving DecidableEq

/-- One entry of detection.log_documents.  The field models the dictionary
slot: none means the key is absent, some v means the key maps to v.
doc.get with a missing key yields Python None. -/
structure LogDocument where
  is_relevant : Option PyVal
deriving DecidableEq

/-- doc.get of the is_relevant key: the stored value, or None when absent. -/
def LogDocument.getIsRelevant (d : LogDocument) : PyVal :=
  d.is_relevant.getD PyVal.pyNone

/-- The generator test in the notebooks: doc.get of is_relevant compared with
True by identity, so only the boolean True passes. -/
def isRelevantTrue (d : LogDocument) : Bool :=
  d.getIsRelevant == PyVal.pyBool true

/-- A detection fetched from the monitoring service by log_id. -/
structure Detection where
  has_hallucination : Bool
  log_documents : List LogDocument
deriving DecidableEq

/-- Numerator of the per-detection relevance ratio: the number of documents
whose is_relevant value is exactly the boolean True. -/
def relevantCount (docs : List LogDocument) : Nat :=
  (docs.filter isRelevantTrue).length

/-- The value appended to doc_relevancy_detections for one detection:
the ratio relevant over total when the document list is nonempty, and
Python None (here: none) when it is empty.  This is the conditional
expression sum div len if docs else None from the notebooks. -/
def docRelevancyEntry (docs : List LogDocument) : Option ℚ :=
  if docs.isEmpty then none
  else some ((relevantCount docs : ℚ) / (docs.length : ℚ))

/-- Outcome of one quotient.poll_for_detection call: a detection, or a raised
exception (error or timeout). -/
inductive PollResult where
  | ok (d : Detection)
  | err
deriving DecidableEq

/-- Whether a poll succeeded. -/
def PollResult.isOk : PollResult → Bool
  | PollResult.ok _ => true
  | PollResult.err => false

/-- The polling loop of the notebooks: for each log_id, try to poll; on
success append has_hallucination to the first list and the relevance entry to
the second; on exception append nothing and continue.  Returns the pair
(hallucination_detections, doc_relevancy_detections). -/
def pollLoop : List PollResult → List Bool × List (Option ℚ)
  | [] => ([], [])
  | PollResult.ok d :: rest =>
      let r := pollLoop rest
      (d.has_hallucination :: r.1, docRelevancyEntry d.log_documents :: r.2)
  | PollResult.err :: rest => pollLoop rest

/-- Exceptions the aggregate print statements can raise. -/
inductive PyError where
  | zeroDivisionError
  | typeError
deriving DecidableEq

/-- Python sum over a list of booleans: the number of True entries. -/
def pySumBool (bs : List Bool) : Nat := (bs.filter id).length

/-- The expression sum over len for the hallucination list: a ZeroDivisionError
when the list is empty, else the fraction of True entries. -/
def hallucinationRateExpr (hs : List Bool) : Except PyError ℚ :=
  if hs.isEmpty then Except.error PyError.zeroDivisionError
  else Except.ok ((pySumBool hs : ℚ) / (hs.length : ℚ))

/-- Python sum over a list that may contain None: adding None to the running
integer total raises a TypeError. -/
def pySumOpt : List (Option ℚ) → Except PyError ℚ
  | [] => Except.ok 0
  | none :: _ => Except.error PyError.typeError
  | some q :: rest =>
      match pySumOpt rest with
      | Except.ok s => Except.ok (q + s)
      | Except.error e => Except.error e

/-- The expression sum over len for the relevance list: first the sum (which
raises a TypeError on a None entry), then the division (which raises a
ZeroDivisionError on an empty list). -/
def avgRelevanceExpr (rs : List (Option ℚ)) : Except PyError ℚ :=
  match pySumOpt rs with
  | Except.error e => Except.error e
  | Except.ok s =>
      if rs.isEmpty then Except.error PyError.zeroDivisionError
      else Except.ok (s / (rs.length : ℚ))

/-- The per-detection relevance list the code builds when every poll in a
batch succeeds with the given detections. -/
def codeDocRelevancyList (ds : List Detection) : List (Option ℚ) :=
  ds.map (fun d => docRelevancyEntry d.log_documents)

/-- The average relevance the code prints over a list of successfully polled
detections. -/
def codeAvgRelevance (ds : List Detection) : Except PyError ℚ :=
  avgRelevanceExpr (codeDocRelevancyList ds)

/-- Modelled from the spec: the average relevance as section 4.4 words it,
the mean over detections of relevant over total, skipping detections with
zero documents (excluded from numerator and denominator of the mean);
undefined when no detection qualifies. -/
def specAvgRelevance (ds : List Detection) : Option ℚ :=
  let ratios := (ds.filter (fun d => !d.log_documents.isEmpty)).map
      (fun d => (relevantCount d.log_documents : ℚ) / (d.log_documents.length : ℚ))
  if ratios.isEmpty then none else some (ratios.sum / (ratios.length : ℚ))

/-! ## The linkup company-research batch loop

get_company_info wraps the provider call in a try block and returns either a
result dictionary with answer and sources or an error dictionary; quotient.log
in the loop body is not wrapped, so a raised submit failure escapes the loop.
The provider and the monitoring client are oracles passed as functions. -/

/-- The query string built by generate_query in the linkup notebook. -/
def generate_query (company_name country : String) : String :=
  "Provide a comprehensive overview of " ++ company_name ++ " in " ++ country ++
    ". Focus on: 1) Their main products and services, " ++
    "2) Recent major developments and achievements, " ++
    "3) Company size and market position, " ++
    "4) Key technologies or innovations they\x27re known for."

/-- The sourcedAnswer object returned by the provider search call. -/
structure SourcedAnswer where
  answer : String
  sources : List String
deriving DecidableEq

/-- The dictionary returned by get_company_info: either the answer dictionary
or the error dictionary built in the except branch. -/
inductive CompanyInfo where
  | ok (answer : String) (sources : List String)
  | errorDict (msg : String) (company_name country : String)
deriving DecidableEq

/-- A whitespace character, as Python strip treats the common ASCII ones. -/
def isSpaceChar (c : Char) : Bool :=
  c == ' ' || c == '\t' || c == '\n' || c == '\r'

/-- Python strip with no argument: drop leading and trailing whitespace. -/
def pyStripChars (l : List Char) : List Char :=
  ((l.dropWhile isSpaceChar).reverse.dropWhile isSpaceChar).reverse

/-- Python strip on a string. -/
def pyStrip (s : String) : String := String.mk (pyStripChars s.data)

/-- get_company_info: strip the inputs, build the query, call the provider;
a raised provider exception is caught and turned into an error dictionary
carrying the message and the (already stripped) inputs. -/
def get_company_info (search : String → Except String SourcedAnswer)
    (company_name country : String) : CompanyInfo :=
  let name := pyStrip company_name
  let ctry := pyStrip country
  match search (generate_query name ctry) with
  | Except.ok r => CompanyInfo.ok r.answer r.sources
  | Except.error e => CompanyInfo.errorDict e name ctry

/-- Outcome of one quotient.log call: a returned log_id, or a raised
exception. -/
inductive LogOutcome where
  | success (log_id : String)
  | failure (msg : String)
deriving DecidableEq

/-- Observable outcome of the linkup batch loop: the collected log_ids, the
printed per-company error messages, and — because quotient.log is not wrapped
in a try block — the message of an uncaught submit exception when one escaped
the loop (in which case the remaining companies were never processed). -/
structure LinkupRun where
  log_ids : List String
  error_prints : List String
  aborted : Option String
deriving DecidableEq

/-- The linkup batch loop over (company_name, country) pairs: look the company
up; on an error dictionary print the error and continue; otherwise call
quotient.log — a submit failure is uncaught and aborts the whole loop, a
success appends the log_id. -/
def linkupLoop (info : String → String → CompanyInfo)
    (logF : String → String → LogOutcome) :
    List (String × String) → LinkupRun
  | [] => { log_ids := [], error_prints := [], aborted := none }
  | (name, ctry) :: rest =>
    match info name ctry with
    | CompanyInfo.errorDict msg _ _ =>
        let r := linkupLoop info logF rest
        { r with error_prints := msg :: r.error_prints }
    | CompanyInfo.ok _ _ =>
        match logF name ctry with
        | LogOutcome.failure m =>
            { log_ids := [], error_prints := [], aborted := some m }
        | LogOutcome.success id =>
            let r := linkupLoop info logF rest
            { r with log_ids := id :: r.log_ids }

/-! ## String scanning for the financial research agent README

parse_string_prompt_value uses three lazy regular expressions over fixed
literal delimiters.  Lazy capture between two literal delimiters is: find the
first occurrence of the opening literal, then the first occurrence of the
closing literal after it.  We implement that directly on character lists. -/

/-- Whether the pattern p is an initial segment of l. -/
def startsWithChars : List Char → List Char → Bool
  | _, [] => true
  | [], _ :: _ => false
  | c :: cs, p :: ps => c == p && startsWithChars cs ps

/-- Split l at the first occurrence of the nonempty pattern p: the characters
before the occurrence and the characters after it; none when p never occurs. -/
def splitAtFirst (p : List Char) : List Char → Option (List Char × List Char)
  | [] => none
  | c :: cs =>
    if startsWithChars (c :: cs) p then some ([], (c :: cs).drop p.length)
    else
      match splitAtFirst p cs with
      | some (b, a) => some (c :: b, a)
      | none => none

/-- Whether the pattern occurs somewhere in l (the Python in operator for
substrings, and the success condition of re.search). -/
def containsChars (p l : List Char) : Bool := (splitAtFirst p l).isSome

/-- Lazy capture between two literals: the text between the first occurrence
of openP and the first occurrence of closeP after it. -/
def extractBetween (openP closeP l : List Char) : Option (List Char) :=
  match splitAtFirst openP l with
  | none => none
  | some (_, rest) =>
    match splitAtFirst closeP rest with
    | none => none
    | some (captured, _) => some captured

/-- The literal delimiters of the three patterns in
parse_string_prompt_value. -/
def spvOpen : List Char := "StringPromptValue(text=\"".data

/-- Closing delimiter of the StringPromptValue pattern. -/
def spvClose : List Char := "\")".data

/-- Opening delimiter of the url pattern. -/
def urlOpen : List Char := "<url>".data

/-- Closing delimiter of the url pattern. -/
def urlClose : List Char := "</url>".data

/-- Opening delimiter of the highlights pattern. -/
def hlOpen : List Char := "<highlights>[".data

/-- Closing delimiter of the highlights pattern. -/
def hlClose : List Char := "]</highlights>".data

/-- Worker of findallSPV: every iteration consumes at least the opening and
closing delimiters, so the input length bounds the number of matches and the
fuel (one more than the length of the scanned text) never runs out. -/
def findallSPVAux : Nat → List Char → List (List Char)
  | 0, _ => []
  | Nat.succ fuel, l =>
    match splitAtFirst spvOpen l with
    | none => []
    | some (_, rest) =>
      match splitAtFirst spvClose rest with
      | none => []
      | some (captured, rest2) => captured :: findallSPVAux fuel rest2

/-- re.findall of the StringPromptValue pattern with lazy capture: repeatedly
take the text between the next opening delimiter and the following closing
delimiter, scanning on after each match. -/
def findallSPV (l : List Char) : List (List Char) :=
  findallSPVAux (l.length + 1) l

/-- Python split on the pipe character: the groups between pipes, empty
groups kept. -/
def splitPipe : List Char → List (List Char)
  | [] => [[]]
  | c :: rest =>
    match splitPipe rest with
    | [] => [[]]
    | grp :: groups =>
      if c == '|' then [] :: grp :: groups else (c :: grp) :: groups

/-- Python strip with the apostrophe character: remove every leading and
trailing apostrophe. -/
def stripApostrophes (l : List Char) : List Char :=
  ((l.dropWhile (· == '\x27')).reverse.dropWhile (· == '\x27')).reverse

/-- The highlights list comprehension: split the captured text on the pipe
character, keep the pieces whose whitespace-strip is nonempty, and map each
kept piece to its whitespace-strip with apostrophes stripped. -/
def cleanHighlights (l : List Char) : List String :=
  ((splitPipe l).filter (fun h => !(pyStripChars h).isEmpty)).map
    (fun h => String.mk (stripApostrophes (pyStripChars h)))

/-- Metadata of a document formatted for the monitoring call. -/
structure DocMetadata where
  url : String
  highlights : List String
deriving DecidableEq

/-- A document produced by parse_string_prompt_value. -/
structure ParsedDoc where
  page_content : String
  metadata : DocMetadata
deriving DecidableEq

/-- parse_string_prompt_value from the README: find every StringPromptValue
match; for each, capture the url between the url tags (the sentinel string
No URL when the tags are absent) and the highlights between the highlight
tags (empty when absent), and build the document dictionary. -/
def parse_string_prompt_value (text : String) : List ParsedDoc :=
  (findallSPV text.data).map (fun m =>
    let url := match extractBetween urlOpen urlClose m with
      | some u => String.mk u
      | none => "No URL"
    let highlights_str := match extractBetween hlOpen hlClose m with
      | some h => h
      | none => []
    { page_content := String.mk m,
      metadata := { url := url, highlights := cleanHighlights highlights_str } })

/-! ## The README batch loop over queries -/

/-- The literal substring tested with the Python in operator in the README
loop. -/
def spvLiteral : List Char := "StringPromptValue".data

/-- The content slot of one message of the final agent state: a string, or a
non-string payload (for which the isinstance test fails). -/
inductive MsgContent where
  | str (s : String)
  | other
deriving DecidableEq

/-- The part of the final agent state the README loop reads: the final
response text and the content of every message. -/
structure AgentOutcome where
  final_response : String
  messages : List MsgContent
deriving DecidableEq

/-- The docs one message contributes to formatted_docs: parse the content
when it is a string containing the StringPromptValue literal, else nothing. -/
def docsOfMessage : MsgContent → List ParsedDoc
  | MsgContent.str s =>
      if containsChars spvLiteral s.data then parse_string_prompt_value s else []
  | MsgContent.other => []

/-- formatted_docs for one query: the concatenation, in message order, of the
docs parsed from each message. -/
def collectDocs (messages : List MsgContent) : List ParsedDoc :=
  (messages.map docsOfMessage).flatten

/-- Observable outcome of the README batch loop: collected log_ids, the number
of no-documents warnings printed, and the printed messages of caught
quotient.log failures. -/
structure ReadmeRun where
  log_ids : List String
  no_docs_warnings : Nat
  log_error_prints : List String
deriving DecidableEq

/-- The README batch loop: run the agent on each query; when formatted_docs is
empty print a warning and do not call quotient.log; otherwise call
quotient.log inside a try block — a success appends the log_id, a caught
failure prints the error — and in every case continue with the next query. -/
def readmeLoop (agent : String → AgentOutcome) (logF : String → LogOutcome) :
    List String → ReadmeRun
  | [] => { log_ids := [], no_docs_warnings := 0, log_error_prints := [] }
  | q :: rest =>
    let docs := collectDocs (agent q).messages
    if docs.isEmpty then
      let r := readmeLoop agent logF rest
      { r with no_docs_warnings := r.no_docs_warnings + 1 }
    else
      match logF q with
      | LogOutcome.success id =>
          let r := readmeLoop agent logF rest
          { r with log_ids := id :: r.log_ids }
      | LogOutcome.failure m =>
          let r := readmeLoop agent logF rest
          { r with log_error_prints := m :: r.log_error_prints }

/-! ## The LangGraph tool-calling generator loop

should_continue and the graph wiring (agent node, tools node, conditional
edge back) are from the README source.  The step engine that walks the graph
lives in the langgraph library, outside this repository; it is modelled from
the spec below with its enforced recursion limit. -/

/-- A message of the LangGraph state: its text and the tool invocations the
model attached to it (empty for a final answer). -/
structure AgentMessage where
  content : String
  tool_calls : List String
deriving DecidableEq

/-- should_continue from the README: route to the tools node when the last
message carries tool calls, else to the END sentinel.  Reading the last
message of an empty state raises, hence the Option. -/
def should_continue (messages : List AgentMessage) : Option String :=
  match messages.getLast? with
  | some last_message =>
      some (if last_message.tool_calls.isEmpty then "__end__" else "tools")
  | none => none

/-- Result of running the compiled workflow on a state. -/
inductive RunResult where
  | final (messages : List AgentMessage)
  | recursionLimitError
deriving DecidableEq

/-- Modelled from the spec: the langgraph step engine that executes the
compiled workflow is not part of this repository.  Per the spec, the loop
re-invokes the model after appending tool results and must stop at an
explicitly enforced maximum iteration bound; the engine enforces its
recursion limit by raising an error when the bound is exhausted.  Each
iteration invokes the model, appends its response, and follows
should_continue: to the tools node (append the tool results and loop) or to
END (return the final state). -/
def runAgent (model : List AgentMessage → AgentMessage)
    (tool : AgentMessage → List AgentMessage) :
    Nat → List AgentMessage → RunResult
  | 0, _ => RunResult.recursionLimitError
  | Nat.succ n, messages =>
    let response := model messages
    let msgs2 := messages ++ [response]
    if should_continue msgs2 = some "tools" then
      runAgent model tool n (msgs2 ++ tool response)
    else RunResult.final msgs2

/-! ## Helper lemmas -/

theorem pollLoop_skips_err (pre post : List PollResult) :
    pollLoop (pre ++ PollResult.err :: post) = pollLoop (pre ++ post) := by
  induction pre with
  | nil => rfl
  | cons p pre ih =>
    cases p with
    | ok d => simp [pollLoop, ih]
    | err => simpa [pollLoop] using ih

theorem pollLoop_fst_length (prs : List PollResult) :
    (pollLoop prs).1.length = (prs.filter PollResult.isOk).length := by
  induction prs with
  | nil => rfl
  | cons p rest ih =>
    cases p with
    | ok d => simp [pollLoop, List.filter, PollResult.isOk, ih]
    | err => simpa [pollLoop, List.filter, PollResult.isOk] using ih

theorem pollLoop_snd_length (prs : List PollResult) :
    (pollLoop prs).2.length = (prs.filter PollResult.isOk).length := by
  induction prs with
  | nil => rfl
  | cons p rest ih =>
    cases p with
    | ok d => simp [pollLoop, List.filter, PollResult.isOk, ih]
    | err => simpa [pollLoop, List.filter, PollResult.isOk] using ih

theorem pollLoop_all_err (prs : List PollResult)
    (h : ∀ p ∈ prs, p = PollResult.err) : pollLoop prs = ([], []) := by
  induction prs with
  | nil => rfl
  | cons p rest ih =>
    have hp := h p (List.mem_cons_self p rest)
    subst hp
    exact ih (fun p hp => h p (List.mem_cons_of_mem _ hp))

/-! ## Claim theorems -/

/-- C3: a log_id whose poll raises contributes nothing: dropping the failed
entry leaves both collected lists unchanged, and the lengths of the two
lists (the denominators of the two aggregate statistics) both equal the
number of successful polls. -/
theorem failed_poll_excluded_from_denominators (pre post : List PollResult) :
    pollLoop (pre ++ PollResult.err :: post) = pollLoop (pre ++ post)
    ∧ (pollLoop (pre ++ PollResult.err :: post)).1.length
        = ((pre ++ post).filter PollResult.isOk).length
    ∧ (pollLoop (pre ++ PollResult.err :: post)).2.length
        = ((pre ++ post).filter PollResult.isOk).length := by
  refine ⟨pollLoop_skips_err pre post, ?_, ?_⟩
  · rw [pollLoop_skips_err pre post]; exact pollLoop_fst_length _
  · rw [pollLoop_skips_err pre post]; exact pollLoop_snd_length _

/-- C5: over a batch with at least one successful poll, the printed
hallucination rate is the number of True flags divided by the number of
successful detections, and it lies in the interval from zero to one. -/
theorem hallucination_rate_formula (prs : List PollResult)
    (h : (pollLoop prs).1 ≠ []) :
    ∃ q : ℚ,
      hallucinationRateExpr (pollLoop prs).1 = Except.ok q
      ∧ q = (pySumBool (pollLoop prs).1 : ℚ)
          / ((prs.filter PollResult.isOk).length : ℚ)
      ∧ 0 ≤ q ∧ q ≤ 1 := by
  set hs := (pollLoop prs).1 with hhs
  have hne : hs.isEmpty = false := by simp [List.isEmpty_iff, h]
  have hlen : hs.length = (prs.filter PollResult.isOk).length := by
    rw [hhs]; exact pollLoop_fst_length prs
  have hpos : 0 < hs.length := List.length_pos.mpr h
  refine ⟨(pySumBool hs : ℚ) / (hs.length : ℚ), ?_, ?_, ?_, ?_⟩
  · simp [hallucinationRateExpr, hne]
  · rw [hlen]
  · apply div_nonneg <;> positivity
  · rw [div_le_one (by exact_mod_cast hpos)]
    have : pySumBool hs ≤ hs.length := List.length_filter_le _ _
    exact_mod_cast this

/-- Witness for C5 at a concrete batch: one successful poll with a
hallucination flag. -/
theorem hallucination_rate_formula_witness :
    (pollLoop [PollResult.ok ⟨true, []⟩]).1 ≠ []
    ∧ ∃ q : ℚ,
        hallucinationRateExpr (pollLoop [PollResult.ok ⟨true, []⟩]).1
          = Except.ok q
        ∧ q = (pySumBool (pollLoop [PollResult.ok ⟨true, []⟩]).1 : ℚ)
            / (([PollResult.ok ⟨true, []⟩].filter PollResult.isOk).length : ℚ)
        ∧ 0 ≤ q ∧ q ≤ 1 :=
  ⟨by decide, hallucination_rate_formula [PollResult.ok ⟨true, []⟩] (by decide)⟩

/-- C6: when every poll failed, both aggregate expressions raise a
ZeroDivisionError — an explicit undefined signal — and in particular the
hallucination rate is never silently the value zero. -/
theorem zero_detections_signal_undefined (prs : List PollResult)
    (h : ∀ p ∈ prs, p = PollResult.err) :
    hallucinationRateExpr (pollLoop prs).1
        = Except.error PyError.zeroDivisionError
    ∧ avgRelevanceExpr (pollLoop prs).2
        = Except.error PyError.zeroDivisionError
    ∧ ∀ q : ℚ, hallucinationRateExpr (pollLoop prs).1 ≠ Except.ok q := by
  have hz := pollLoop_all_err prs h
  rw [hz]
  refine ⟨rfl, rfl, ?_⟩
  intro q hq
  simp [hallucinationRateExpr] at hq

/-- Witness for C6: a batch of two failed polls. -/
theorem zero_detections_signal_undefined_witness :
    hallucinationRateExpr (pollLoop [PollResult.err, PollResult.err]).1
        = Except.error PyError.zeroDivisionError
    ∧ avgRelevanceExpr (pollLoop [PollResult.err, PollResult.err]).2
        = Except.error PyError.zeroDivisionError
    ∧ ∀ q : ℚ,
        hallucinationRateExpr (pollLoop [PollResult.err, PollResult.err]).1
          ≠ Except.ok q :=
  zero_detections_signal_undefined [PollResult.err, PollResult.err] (by decide)

/-- C9: in the per-detection relevance ratio, a prepended document always
adds one to the denominator, and adds one to the numerator exactly when its
is_relevant value is the boolean True — a missing, None, or other value is
counted in the total but never as relevant. -/
theorem relevance_counts_only_literal_true (d : LogDocument)
    (docs : List LogDocument) :
    docRelevancyEntry (d :: docs)
      = some
          ((((if d.getIsRelevant = PyVal.pyBool true
              then relevantCount docs + 1 else relevantCount docs) : ℕ) : ℚ)
            / (((docs.length + 1 : ℕ)) : ℚ)) := by
  by_cases h : d.getIsRelevant = PyVal.pyBool true
  · simp [docRelevancyEntry, relevantCount, isRelevantTrue, List.filter_cons, h,
      Nat.add_comm]
  · simp [docRelevancyEntry, relevantCount, isRelevantTrue, List.filter_cons, h]

theorem linkupLoop_cons (info : String → String → CompanyInfo)
    (logF : String → String → LogOutcome)
    (name ctry : String) (rest : List (String × String)) :
    linkupLoop info logF ((name, ctry) :: rest)
      = match info name ctry with
        | CompanyInfo.errorDict msg _ _ =>
            { linkupLoop info logF rest with
              error_prints := msg :: (linkupLoop info logF rest).error_prints }
        | CompanyInfo.ok _ _ =>
            match logF name ctry with
            | LogOutcome.failure m =>
                { log_ids := [], error_prints := [], aborted := some m }
            | LogOutcome.success id =>
                { linkupLoop info logF rest with
                  log_ids := id :: (linkupLoop info logF rest).log_ids } := rfl

theorem readmeLoop_cons (agent : String → AgentOutcome)
    (logF : String → LogOutcome) (q : String) (rest : List String) :
    readmeLoop agent logF (q :: rest)
      = if (collectDocs (agent q).messages).isEmpty then
          { readmeLoop agent logF rest with
            no_docs_warnings := (readmeLoop agent logF rest).no_docs_warnings + 1 }
        else
          match logF q with
          | LogOutcome.success id =>
              { readmeLoop agent logF rest with
                log_ids := id :: (readmeLoop agent logF rest).log_ids }
          | LogOutcome.failure m =>
              { readmeLoop agent logF rest with
                log_error_prints :=
                  m :: (readmeLoop agent logF rest).log_error_prints } := rfl

theorem pySumOpt_map_some (qs : List ℚ) :
    pySumOpt (qs.map some) = Except.ok qs.sum := by
  induction qs with
  | nil => rfl
  | cons q rest ih => simp [pySumOpt, ih]

/-- C1 fails on the code: with one fully relevant one-document detection and
one zero-document detection, the spec mean (skipping the empty one) is one,
but the code appends None for the empty detection — the entry still occupies
a slot of the averaged list — and the sum raises a TypeError, so the printed
average is never the skipped mean. -/
theorem avg_relevance_skip_counterexample :
    specAvgRelevance
        [⟨false, [⟨some (PyVal.pyBool true)⟩]⟩, ⟨false, []⟩] = some 1
    ∧ codeDocRelevancyList
        [⟨false, [⟨some (PyVal.pyBool true)⟩]⟩, ⟨false, []⟩]
        = [some 1, none]
    ∧ codeAvgRelevance
        [⟨false, [⟨some (PyVal.pyBool true)⟩]⟩, ⟨false, []⟩]
        = Except.error PyError.typeError
    ∧ ∀ q : ℚ,
        codeAvgRelevance [⟨false, [⟨some (PyVal.pyBool true)⟩]⟩, ⟨false, []⟩]
          ≠ Except.ok q := by
  refine ⟨?_, ?_, ?_, ?_⟩
  · simp [specAvgRelevance, relevantCount, isRelevantTrue, LogDocument.getIsRelevant]
  · simp [codeDocRelevancyList, docRelevancyEntry, relevantCount, isRelevantTrue,
      LogDocument.getIsRelevant]
  · simp [codeAvgRelevance, codeDocRelevancyList, docRelevancyEntry, relevantCount,
      isRelevantTrue, LogDocument.getIsRelevant, avgRelevanceExpr, pySumOpt]
  · intro q
    simp [codeAvgRelevance, codeDocRelevancyList, docRelevancyEntry, relevantCount,
      isRelevantTrue, LogDocument.getIsRelevant, avgRelevanceExpr, pySumOpt]

/-- C1 amended: when every successfully polled detection has at least one
document, the printed average document relevance equals the spec mean of the
per-detection ratios; a zero-document detection is not skipped — it
contributes a None entry that occupies a slot of the averaged list and makes
the sum raise a TypeError (see the counterexample). -/
theorem avg_relevance_mean_when_all_nonempty (ds : List Detection)
    (hne : ds ≠ []) (hall : ∀ d ∈ ds, d.log_documents ≠ []) :
    ∃ q : ℚ, codeAvgRelevance ds = Except.ok q ∧ specAvgRelevance ds = some q := by
  have hfilter : ds.filter (fun d => !d.log_documents.isEmpty) = ds :=
    List.filter_eq_self.mpr
      (fun d hd => by simp [List.isEmpty_iff, hall d hd])
  have hcode : codeDocRelevancyList ds
      = (ds.map (fun d =>
          (relevantCount d.log_documents : ℚ) / (d.log_documents.length : ℚ))).map
        some := by
    unfold codeDocRelevancyList
    rw [List.map_map]
    apply List.map_congr_left
    intro d hd
    have : d.log_documents.isEmpty = false := by
      simp [List.isEmpty_iff, hall d hd]
    simp [docRelevancyEntry, this]
  have hlen : ds.length ≠ 0 := by
    simpa [List.length_eq_zero] using hne
  refine ⟨(ds.map (fun d =>
      (relevantCount d.log_documents : ℚ) / (d.log_documents.length : ℚ))).sum
        / (ds.length : ℚ), ?_, ?_⟩
  · unfold codeAvgRelevance
    rw [hcode, avgRelevanceExpr, pySumOpt_map_some]
    simp [List.isEmpty_iff, hne]
  · unfold specAvgRelevance
    rw [hfilter]
    simp [List.isEmpty_iff, hne]

/-- Witness for the amended C1 at a concrete batch of one single-document
detection: the code average and the spec mean agree. -/
theorem avg_relevance_mean_when_all_nonempty_witness :
    ∃ q : ℚ,
      codeAvgRelevance [⟨false, [⟨some (PyVal.pyBool true)⟩]⟩] = Except.ok q
      ∧ specAvgRelevance [⟨false, [⟨some (PyVal.pyBool true)⟩]⟩] = some q :=
  avg_relevance_mean_when_all_nonempty [⟨false, [⟨some (PyVal.pyBool true)⟩]⟩]
    (by decide) (by decide)

/-- C8: a provider call failure is caught inside get_company_info and turned
into an error dictionary, so the batch loop prints the error, submits no log
for that company, and processes the remaining companies exactly as it would
have without the failed one. -/
theorem provider_failure_not_fatal (search : String → Except String SourcedAnswer)
    (logF : String → String → LogOutcome)
    (name ctry e : String) (rest : List (String × String))
    (hfail : search (generate_query (pyStrip name) (pyStrip ctry))
        = Except.error e) :
    get_company_info search name ctry
        = CompanyInfo.errorDict e (pyStrip name) (pyStrip ctry)
    ∧ linkupLoop (get_company_info search) logF ((name, ctry) :: rest)
        = { linkupLoop (get_company_info search) logF rest with
            error_prints :=
              e :: (linkupLoop (get_company_info search) logF rest).error_prints } := by
  have hinfo : get_company_info search name ctry
      = CompanyInfo.errorDict e (pyStrip name) (pyStrip ctry) := by
    unfold get_company_info
    simp only [hfail]
  refine ⟨hinfo, ?_⟩
  rw [linkupLoop_cons, hinfo]

/-- Witness for C8: a provider that always raises, a two-company batch; the
loop prints both errors, collects no log_ids, and nothing escapes. -/
theorem provider_failure_not_fatal_witness :
    get_company_info (fun _ => Except.error "rate limit") "A" "B"
        = CompanyInfo.errorDict "rate limit" (pyStrip "A") (pyStrip "B")
    ∧ linkupLoop (get_company_info (fun _ => Except.error "rate limit"))
        (fun _ _ => LogOutcome.success "id") [("A", "B"), ("C", "D")]
        = { linkupLoop (get_company_info (fun _ => Except.error "rate limit"))
              (fun _ _ => LogOutcome.success "id") [("C", "D")] with
            error_prints :=
              "rate limit" ::
                (linkupLoop (get_company_info (fun _ => Except.error "rate limit"))
                  (fun _ _ => LogOutcome.success "id") [("C", "D")]).error_prints } :=
  provider_failure_not_fatal (fun _ => Except.error "rate limit")
    (fun _ _ => LogOutcome.success "id") "A" "B" "rate limit" [("C", "D")] rfl

/-- C4 fails on the code of the search notebooks: in the linkup loop the
quotient.log call is not inside a try block, so a submit failure on the first
company aborts the loop — the second company is never looked up and its
would-be log_id never appears, and the batch record carries the escaped
exception. -/
theorem submit_failure_aborts_linkup_batch :
    linkupLoop (fun _ _ => CompanyInfo.ok "answer" [])
        (fun name _ => if name = "One" then LogOutcome.failure "boom"
          else LogOutcome.success "id2")
        [("One", "US"), ("Two", "US")]
      = { log_ids := [], error_prints := [], aborted := some "boom" }
    ∧ linkupLoop (fun _ _ => CompanyInfo.ok "answer" [])
        (fun name _ => if name = "One" then LogOutcome.failure "boom"
          else LogOutcome.success "id2")
        [("Two", "US")]
      = { log_ids := ["id2"], error_prints := [], aborted := none } := by
  constructor <;> rfl

/-- C4 amended: the catch-and-continue contract holds in the financial
research agent README loop — there quotient.log sits in a try block, so a
submit failure is reported (its message printed), contributes no log_id, and
the remaining queries are processed unchanged; in the search notebooks the
call is unwrapped and a submit failure aborts the batch (see the
counterexample). -/
theorem submit_failure_caught_in_readme_loop
    (agent : String → AgentOutcome) (logF : String → LogOutcome)
    (q m : String) (rest : List String)
    (hdocs : (collectDocs (agent q).messages).isEmpty = false)
    (hfail : logF q = LogOutcome.failure m) :
    readmeLoop agent logF (q :: rest)
      = { readmeLoop agent logF rest with
          log_error_prints :=
            m :: (readmeLoop agent logF rest).log_error_prints } := by
  rw [readmeLoop_cons, hdocs, hfail]
  simp

/-- Witness for the amended C4: one query whose agent state carries a parsed
document and whose submit raises; the error is recorded and the empty rest
is unaffected. -/
theorem submit_failure_caught_in_readme_loop_witness :
    readmeLoop
        (fun _ => ⟨"ans", [MsgContent.str "StringPromptValue(text=\"d\")"]⟩)
        (fun _ => LogOutcome.failure "submit down") ["q1"]
      = { readmeLoop
            (fun _ => ⟨"ans", [MsgContent.str "StringPromptValue(text=\"d\")"]⟩)
            (fun _ => LogOutcome.failure "submit down") [] with
          log_error_prints :=
            "submit down" ::
              (readmeLoop
                (fun _ => ⟨"ans", [MsgContent.str "StringPromptValue(text=\"d\")"]⟩)
                (fun _ => LogOutcome.failure "submit down") []).log_error_prints } :=
  submit_failure_caught_in_readme_loop
    (fun _ => ⟨"ans", [MsgContent.str "StringPromptValue(text=\"d\")"]⟩)
    (fun _ => LogOutcome.failure "submit down") "q1" "submit down" []
    (by decide) rfl

/-- C7: every document built by parse_string_prompt_value whose content has no
extractable url element gets the fixed sentinel string No URL as its url; the
function is total, so normalization never fails on a missing field. -/
theorem missing_url_gets_sentinel (text : String) (d : ParsedDoc)
    (hd : d ∈ parse_string_prompt_value text)
    (hu : extractBetween urlOpen urlClose d.page_content.data = none) :
    d.metadata.url = "No URL" := by
  obtain ⟨m, hmem, hdm⟩ := List.mem_map.mp hd
  subst hdm
  have hm : extractBetween urlOpen urlClose m = none := by simpa using hu
  simp [hm]

/-- Witness for C7: a StringPromptValue match with no url tags parses to a
document whose url is the sentinel. -/
theorem missing_url_gets_sentinel_witness :
    (⟨"hello", ⟨"No URL", []⟩⟩ : ParsedDoc)
        ∈ parse_string_prompt_value "StringPromptValue(text=\"hello\")"
    ∧ (⟨"hello", ⟨"No URL", []⟩⟩ : ParsedDoc).metadata.url = "No URL" :=
  ⟨by decide,
    missing_url_gets_sentinel "StringPromptValue(text=\"hello\")"
      ⟨"hello", ⟨"No URL", []⟩⟩ (by decide) (by decide)⟩

/-- C10: when no message of the final agent state yields any parsed document,
the README loop never calls quotient.log for that query — no log_id is
appended — and instead counts one warning print, then processes the remaining
queries unchanged. -/
theorem no_docs_means_no_log (agent : String → AgentOutcome)
    (logF : String → LogOutcome) (q : String) (rest : List String)
    (h : ∀ mc ∈ (agent q).messages, docsOfMessage mc = []) :
    readmeLoop agent logF (q :: rest)
      = { readmeLoop agent logF rest with
          no_docs_warnings := (readmeLoop agent logF rest).no_docs_warnings + 1 } := by
  have hempty : (collectDocs (agent q).messages).isEmpty = true := by
    unfold collectDocs
    rw [List.isEmpty_iff, List.flatten_eq_nil_iff]
    intro l hl
    obtain ⟨mc, hmc, hml⟩ := List.mem_map.mp hl
    rw [← hml]
    exact h mc hmc
  rw [readmeLoop_cons, hempty]
  simp

/-- Witness for C10: a query whose agent state has one plain string message
and one non-string message; no log is submitted and one warning is counted. -/
theorem no_docs_means_no_log_witness :
    readmeLoop (fun _ => ⟨"ans", [MsgContent.str "plain", MsgContent.other]⟩)
        (fun _ => LogOutcome.success "id") ["q1"]
      = { readmeLoop (fun _ => ⟨"ans", [MsgContent.str "plain", MsgContent.other]⟩)
            (fun _ => LogOutcome.success "id") [] with
          no_docs_warnings :=
            (readmeLoop (fun _ => ⟨"ans", [MsgContent.str "plain", MsgContent.other]⟩)
              (fun _ => LogOutcome.success "id") []).no_docs_warnings + 1 } :=
  no_docs_means_no_log (fun _ => ⟨"ans", [MsgContent.str "plain", MsgContent.other]⟩)
    (fun _ => LogOutcome.success "id") "q1" [] (by decide)

theorem should_continue_append (messages : List AgentMessage)
    (response : AgentMessage) :
    should_continue (messages ++ [response])
      = some (if response.tool_calls.isEmpty then "__end__" else "tools") := by
  unfold should_continue
  simp

/-- C2: the tool-calling generator loop is a total function of the model, the
tool, the iteration bound, and the state — it cannot iterate indefinitely —
and it ends in exactly one of the two claimed ways: a final state is returned
only when the model emitted no further tool invocation (the last message
carries no tool calls), and under a stub model that requests a tool on every
invocation the loop stops by exhausting the enforced iteration bound. -/
theorem tool_loop_terminates (model : List AgentMessage → AgentMessage)
    (tool : AgentMessage → List AgentMessage)
    (limit : Nat) (messages : List AgentMessage) :
    (∀ res, runAgent model tool limit messages = RunResult.final res →
        ∃ last, res.getLast? = some last ∧ last.tool_calls = [])
    ∧ ((∀ ms, (model ms).tool_calls ≠ []) →
        runAgent model tool limit messages = RunResult.recursionLimitError) := by
  induction limit generalizing messages with
  | zero =>
    refine ⟨?_, fun _ => rfl⟩
    intro res hres
    exact absurd hres (by simp [runAgent])
  | succ n ih =>
    constructor
    · intro res hres
      rw [runAgent] at hres
      by_cases htc : (model messages).tool_calls.isEmpty
      · rw [should_continue_append] at hres
        simp only [htc, if_pos] at hres
        have : RunResult.final (messages ++ [model messages]) = RunResult.final res := by
          simpa using hres
        refine ⟨model messages, ?_, ?_⟩
        · rw [RunResult.final.injEq] at this
          rw [← this]
          simp
        · simpa [List.isEmpty_iff] using htc
      · rw [should_continue_append] at hres
        simp only [htc, if_neg] at hres
        simp only [if_pos, Bool.false_eq_true, if_false, reduceIte] at hres
        exact (ih _).1 res hres
    · intro hstub
      rw [runAgent, should_continue_append]
      have htc : (model messages).tool_calls.isEmpty = false := by
        simp [List.isEmpty_iff, hstub messages]
      rw [htc]
      simpa using (ih _).2 hstub

/-- Witness for C2: a stub model that always requests a tool hits the limit
after two iterations, and a model that immediately answers yields a final
state whose last message carries no tool call. -/
theorem tool_loop_terminates_witness :
    runAgent (fun _ => ⟨"looping", ["search"]⟩) (fun _ => []) 2 []
        = RunResult.recursionLimitError
    ∧ ∃ last, ([(⟨"done", []⟩ : AgentMessage)]).getLast? = some last
        ∧ last.tool_calls = [] :=
  ⟨(tool_loop_terminates (fun _ => ⟨"looping", ["search"]⟩) (fun _ => []) 2 []).2
      (fun ms => by simp),
    (tool_loop_terminates (fun _ => ⟨"done", []⟩) (fun _ => []) 1 []).1
      [⟨"done", []⟩] (by rfl)⟩
